import Mathlib

/-!
Shallow embedding of the client-side nutrition aggregation and
compatibility-display logic of the Calo31 repository
(`src/client/app/(tabs)/statistics.tsx` and
`src/client/app/(tabs)/recommended-menus.tsx`), together with theorems
settling the frozen claims about it.

JavaScript numbers are modelled as `ℚ` (or `ℤ` where the source only ever
holds integers), absent / `undefined` values as `Option`, and thrown
exceptions as an `Except` branch of the response.  UI event handlers are
modelled as explicit state-transition functions; reachable UI state is the
fold of a list of events over the initial state.
-/

namespace Calo

/-! ## Severity tiers (recommended-menus.tsx, FoodScannerScreen) -/

/-- Severity tier of a compatibility score, the four-tier table of the spec:
`[80,100] → good, [60,80) → caution, [40,60) → warning, [0,40) → critical`. -/
inductive Tier
  | good
  | caution
  | warning
  | critical
deriving DecidableEq

/-- The spec's four-tier table, written from the spec §4.2 for the refinement
comparison of claim C1 (the source has no named tier function). -/
def specTier (score : ℤ) : Tier :=
  if 80 ≤ score then Tier.good
  else if 60 ≤ score then Tier.caution
  else if 40 ≤ score then Tier.warning
  else Tier.critical

/-- Icon components used for the compatibility header
(lucide icons rendered with a size and a color). -/
inductive IconKind
  | checkCircle
  | info
  | alertTriangle
deriving DecidableEq

/-- A rendered icon: its component and its color prop. -/
structure Icon where
  kind : IconKind
  color : String
deriving DecidableEq

/-- `getCompatibilityColor`, recommended-menus.tsx lines 1244-1249. -/
def getCompatibilityColor (score : ℤ) : String :=
  if 80 ≤ score then "#10b981"
  else if 60 ≤ score then "#f59e0b"
  else if 40 ≤ score then "#ef4444"
  else "#dc2626"

/-- `getCompatibilityIcon`, recommended-menus.tsx lines 1251-1255. -/
def getCompatibilityIcon (score : ℤ) : Icon :=
  if 80 ≤ score then { kind := IconKind.checkCircle, color := "#10b981" }
  else if 60 ≤ score then { kind := IconKind.info, color := "#f59e0b" }
  else { kind := IconKind.alertTriangle, color := "#ef4444" }

/-- The color each tier of the table gets from `getCompatibilityColor`. -/
def colorOfTier : Tier → String
  | Tier.good => "#10b981"
  | Tier.caution => "#f59e0b"
  | Tier.warning => "#ef4444"
  | Tier.critical => "#dc2626"

/-- The icon each tier of the table gets from `getCompatibilityIcon`; the
source assigns the warning and critical tiers one and the same icon. -/
def iconOfTier : Tier → Icon
  | Tier.good => { kind := IconKind.checkCircle, color := "#10b981" }
  | Tier.caution => { kind := IconKind.info, color := "#f59e0b" }
  | Tier.warning => { kind := IconKind.alertTriangle, color := "#ef4444" }
  | Tier.critical => { kind := IconKind.alertTriangle, color := "#ef4444" }

/-! ## Chart derivation (statistics.tsx, StatisticsScreen) -/

/-- One day of the `dailyBreakdown` array; the untyped JS objects may lack
any numeric field, modelled by `Option`. -/
structure DailyRecord where
  date : String
  calories : Option ℚ
  protein_g : Option ℚ
  carbs_g : Option ℚ
  fats_g : Option ℚ
deriving DecidableEq

/-- One achievement of `statistics.achievements` (statistics.tsx). -/
structure Achievement where
  title : String
  description : String
  progress : ℚ
  max_progress : ℚ
deriving DecidableEq

/-- The fields of the statistics response that the chart derivation and the
achievements section read; `dailyBreakdown` may be absent. -/
structure Statistics where
  dailyBreakdown : Option (List DailyRecord)
  average_protein_g : Option ℚ
  average_carbs_g : Option ℚ
  average_fats_g : Option ℚ
  achievements : List Achievement
deriving DecidableEq

/-- A labels/data pair of a line or bar chart. -/
structure LabeledSeries where
  labels : List String
  data : List ℚ
deriving DecidableEq

/-- One slice of the pie chart. -/
structure PieSlice where
  name : String
  population : ℚ
deriving DecidableEq

/-- The object returned by the `chartData` memo (colors and fonts omitted). -/
structure ChartData where
  line : LabeledSeries
  bar : LabeledSeries
  pie : List PieSlice
deriving DecidableEq

/-- JavaScript `array.slice(-n)`: the last `min n (length)` elements,
in their original order. -/
def lastN (n : ℕ) (l : List α) : List α :=
  l.drop (l.length - n)

/-- The per-record series the memo computes for one numeric field over the
last seven records: `dailyData.map((day) => day.<field> || 0)`,
statistics.tsx lines 110-113. -/
def seriesOf (field : DailyRecord → Option ℚ) (breakdown : List DailyRecord) : List ℚ :=
  (lastN 7 breakdown).map (fun day => (field day).getD 0)

/-- The chart object built when `dailyBreakdown` is present,
statistics.tsx lines 103-158. -/
def mkChartData (labelOf : String → String) (stats : Statistics)
    (breakdown : List DailyRecord) : ChartData :=
  let dailyData := lastN 7 breakdown
  let labels := dailyData.map (fun day => labelOf day.date)
  let caloriesData := dailyData.map (fun day => day.calories.getD 0)
  { line := { labels := labels, data := caloriesData }
    bar := { labels := labels, data := caloriesData }
    pie := [ { name := "Protein", population := stats.average_protein_g.getD 0 }
           , { name := "Carbs", population := stats.average_carbs_g.getD 0 }
           , { name := "Fats", population := stats.average_fats_g.getD 0 } ] }

/-- The `chartData` memo, statistics.tsx lines 100-159:
`if (!statistics?.dailyBreakdown) return null` and otherwise the chart
object.  `labelOf` stands for the external
`new Date(day.date).toLocaleDateString("en-US", \x7b weekday: "short" \x7d)`
conversion, a collaborator outside the repository. -/
def chartData (labelOf : String → String) : Option Statistics → Option ChartData
  | none => none
  | some stats =>
    match stats.dailyBreakdown with
    | none => none
    | some breakdown => some (mkChartData labelOf stats breakdown)

/-- Fill width (in percent) of one achievement progress bar,
statistics.tsx line 490:
`width: ((achievement.progress / achievement.max_progress) * 100)%`,
with no clamp. -/
def achievementFillWidthPercent (a : Achievement) : ℚ :=
  a.progress / a.max_progress * 100

/-! ## Menu list loading (recommended-menus.tsx, RecommendedMenusScreen) -/

/-- The fields of a recommended menu the screen stores. -/
structure RecommendedMenu where
  menu_id : String
  title : String
  total_calories : ℚ
  days_count : ℕ
deriving DecidableEq

/-- The `/recommended-menus` response body: a success flag and an optional
data array. -/
structure MenusResponse where
  success : Bool
  data : Option (List RecommendedMenu)
deriving DecidableEq

/-- The menus state after `loadMenus` resolves, recommended-menus.tsx lines
120-138: on `success` the fetched list (or `[]` when data is absent), on a
non-success envelope `[]`, and in the catch branch of a thrown
network/transport error also `[]`.  `prevMenus` is the state before the
call. -/
def loadMenusNext (prevMenus : List RecommendedMenu)
    (response : Except Unit MenusResponse) : List RecommendedMenu :=
  match response with
  | Except.ok r => if r.success then r.data.getD [] else []
  | Except.error _ => []

/-! ## Menu generation configuration (recommended-menus.tsx) -/

/-- The `GenerateMenuRequest` configuration struct,
recommended-menus.tsx lines 63-73. -/
structure GenerateMenuRequest where
  days : ℕ
  mealsPerDay : String
  mealChangeFrequency : String
  includeLeftovers : Bool
  sameMealTimes : Bool
  targetCalories : Option ℕ
  dietaryPreferences : Option (List String)
  excludedIngredients : Option (List String)
  budget : Option ℕ
deriving DecidableEq

/-- The initial `generateConfig` state, recommended-menus.tsx lines 90-97. -/
def initialGenerateConfig : GenerateMenuRequest :=
  { days := 7
    mealsPerDay := "3_main"
    mealChangeFrequency := "daily"
    includeLeftovers := false
    sameMealTimes := true
    targetCalories := none
    dietaryPreferences := none
    excludedIngredients := none
    budget := some 200 }

/-- The day options the selector renders, line 402: `[3, 7, 14]`. -/
def dayOptions : List ℕ := [3, 7, 14]

/-- The meals-per-day option keys the selector renders, lines 430-434. -/
def mealOptions : List String :=
  ["3_main", "3_plus_2_snacks", "2_plus_1_intermediate"]

/-- The budget options the selector renders, line 462. -/
def budgetOptions : List ℕ := [100, 150, 200, 300]

/-- The `setGenerateConfig` events the modal can fire: pressing the i-th
day / meals / budget option, or toggling one of the two switches. -/
inductive ConfigEvent
  | pressDay (i : Fin 3)
  | pressMeal (i : Fin 3)
  | pressBudget (i : Fin 4)
  | toggleLeftovers
  | toggleSameMealTimes

/-- One `setGenerateConfig(prev => ...)` update, recommended-menus.tsx
lines 409, 441, 469, 493, 513. -/
def applyConfigEvent (cfg : GenerateMenuRequest) : ConfigEvent → GenerateMenuRequest
  | ConfigEvent.pressDay i => { cfg with days := dayOptions.get ⟨i.val, i.isLt⟩ }
  | ConfigEvent.pressMeal i => { cfg with mealsPerDay := mealOptions.get ⟨i.val, i.isLt⟩ }
  | ConfigEvent.pressBudget i => { cfg with budget := some (budgetOptions.get ⟨i.val, i.isLt⟩) }
  | ConfigEvent.toggleLeftovers => { cfg with includeLeftovers := !cfg.includeLeftovers }
  | ConfigEvent.toggleSameMealTimes => { cfg with sameMealTimes := !cfg.sameMealTimes }

/-- The domain invariant of claim C9. -/
def configInvariant (cfg : GenerateMenuRequest) : Prop :=
  cfg.days ∈ dayOptions ∧ cfg.mealsPerDay ∈ mealOptions

instance (cfg : GenerateMenuRequest) : Decidable (configInvariant cfg) :=
  inferInstanceAs (Decidable (_ ∧ _))

/-! ## Daily-contribution rendering (recommended-menus.tsx, FoodScannerScreen) -/

/-- What the Daily Contribution row renders for one nutrient percentage,
recommended-menus.tsx lines 1480-1509: the bar fill width
`Math.min(percent, 100)` and the text `Math.round(percent)%`. -/
structure ContributionRender where
  barWidthPercent : ℚ
  displayPercent : ℤ
deriving DecidableEq

/-- The rendering of one daily-contribution percentage.  Mathlib's `round`
is `⌊x + 1/2⌋`, which is JavaScript's `Math.round`. -/
def renderContribution (percent : ℚ) : ContributionRender :=
  { barWidthPercent := min percent 100
    displayPercent := round percent }

/-! ## Quantity selector (recommended-menus.tsx, FoodScannerScreen) -/

/-- The events of the quantity selector: the minus button, the plus button,
and a text input whose `parseInt` either yields an integer or fails. -/
inductive QuantityEvent
  | decrement
  | increment
  | input (parsed : Option ℤ)

/-- `useState(100)`, recommended-menus.tsx line 1112. -/
def quantityInit : ℤ := 100

/-- `parseInt(text) || 0`: a failed parse becomes 0. -/
def parseIntOrZero (parsed : Option ℤ) : ℤ :=
  parsed.getD 0

/-- One quantity update, recommended-menus.tsx lines 1606-1630:
minus is `Math.max(10, quantity - 10)`, plus is
`Math.min(1000, quantity + 10)`, and text input is
`Math.max(0, Math.min(1000, num))`. -/
def applyQuantityEvent (quantity : ℤ) : QuantityEvent → ℤ
  | QuantityEvent.decrement => max 10 (quantity - 10)
  | QuantityEvent.increment => min 1000 (quantity + 10)
  | QuantityEvent.input parsed => max 0 (min 1000 (parseIntOrZero parsed))

/-! ## Compatibility scoring (claim C8) -/

/-- Modelled from the spec: the repository only receives `user_analysis`
from the server; the `analyze` scoring itself is not under `src/`.
Spec §4.2: the penalty weights per triggered alert and per conflicting
allergen/dietary-preference match are a tunable configuration table. -/
structure PenaltyConfig where
  alertPenalty : ℕ
  conflictPenalty : ℕ

/-- Modelled from the spec: `compatibility_score` of `analyze` (not under
`src/`), per spec §4.2: "starts at 100, decremented by a fixed penalty per
triggered alert and per conflicting allergen/dietary-preference match,
floored at 0". -/
def compatibilityScore (cfg : PenaltyConfig) (numAlerts numConflicts : ℕ) : ℤ :=
  max 0 (100 - numAlerts * cfg.alertPenalty - numConflicts * cfg.conflictPenalty)

/-! ## Sample values used by witnesses and counterexamples -/

/-- A fully logged day. -/
def recFull : DailyRecord :=
  { date := "2024-01-01", calories := some 2000, protein_g := some 100
    carbs_g := some 250, fats_g := some 70 }

/-- A day whose numeric fields are all absent. -/
def recMissing : DailyRecord :=
  { date := "2024-01-02", calories := none, protein_g := none
    carbs_g := none, fats_g := none }

/-- A statistics payload whose breakdown holds one full and one empty day. -/
def statsTwo : Statistics :=
  { dailyBreakdown := some [recFull, recMissing]
    average_protein_g := some 100, average_carbs_g := some 250
    average_fats_g := some 70, achievements := [] }

/-- A statistics payload whose breakdown is present but empty. -/
def statsEmptyBreakdown : Statistics :=
  { dailyBreakdown := some []
    average_protein_g := none, average_carbs_g := none
    average_fats_g := none, achievements := [] }

/-- A previously loaded menu. -/
def sampleMenu : RecommendedMenu :=
  { menu_id := "m1", title := "Week plan", total_calories := 14000, days_count := 7 }

/-! ## Claim C1 -/

/-- C1 counterexample: scores 30 and 50 lie in different tiers of the
four-tier table (critical vs warning) and indeed get different colors from
`getCompatibilityColor`, yet `getCompatibilityIcon` gives them one and the
same icon — so the icon selection does not classify scores into the four-tier
table, and at score 30 the color (critical) and the icon (shared with the
warning tier) do not belong to one tier. -/
theorem icon_color_tier_divergence :
    specTier 30 = Tier.critical ∧ specTier 50 = Tier.warning ∧
    getCompatibilityColor 30 ≠ getCompatibilityColor 50 ∧
    getCompatibilityIcon 30 = getCompatibilityIcon 50 := by
  decide

/-- C1 (amended): `getCompatibilityColor` classifies every score exactly by
the four-tier table (with the 80 boundary inclusive on the good side:
79 → caution, 80 → good), while `getCompatibilityIcon` classifies by the
same table coarsened by merging the warning and critical tiers into a single
alert icon; the two agree tier-for-tier on every score of the good, caution
and warning ranges and differ only in that merge. -/
theorem tier_classification_color_icon (score : ℤ) :
    getCompatibilityColor score = colorOfTier (specTier score) ∧
    getCompatibilityIcon score = iconOfTier (specTier score) ∧
    iconOfTier Tier.warning = iconOfTier Tier.critical ∧
    specTier 80 = Tier.good ∧ specTier 79 = Tier.caution := by
  refine ⟨?_, ?_, rfl, by decide, by decide⟩
  · simp only [getCompatibilityColor, specTier]
    split_ifs <;> rfl
  · simp only [getCompatibilityIcon, specTier]
    split_ifs <;> rfl

/-! ## Claim C3 -/

/-- C3 counterexample: with a previously loaded non-empty menu list, a
thrown network/transport error leaves the menus state `[]`, not the
last-known-good list. -/
theorem loadMenus_error_discards_previous :
    loadMenusNext [sampleMenu] (Except.error ()) = [] ∧
    [sampleMenu] ≠ ([] : List RecommendedMenu) := by
  exact ⟨rfl, by decide⟩

/-- C3 (amended): when the fetch of the recommended-menus list fails with a
network/transport error, the menus state is reset to the empty list
regardless of its previous value — the previously loaded list is discarded,
not kept. -/
theorem loadMenus_error_resets_empty (prevMenus : List RecommendedMenu) (e : Unit) :
    loadMenusNext prevMenus (Except.error e) = [] := rfl

/-! ## Claim C8 -/

/-- C8: the spec-modelled `analyze` score starts at 100 with no violations,
never increases when one more triggered alert or one more conflicting
allergen/dietary-preference match is added (holding all else constant, for
every penalty configuration), and always lies in `[0, 100]` thanks to the
floor at 0. -/
theorem compatibilityScore_monotone_bounded (cfg : PenaltyConfig) (a c : ℕ) :
    compatibilityScore cfg 0 0 = 100 ∧
    compatibilityScore cfg (a + 1) c ≤ compatibilityScore cfg a c ∧
    compatibilityScore cfg a (c + 1) ≤ compatibilityScore cfg a c ∧
    0 ≤ compatibilityScore cfg a c ∧
    compatibilityScore cfg a c ≤ 100 := by
  unfold compatibilityScore
  have hp : (0 : ℤ) ≤ (cfg.alertPenalty : ℤ) := Int.natCast_nonneg _
  have hq : (0 : ℤ) ≤ (cfg.conflictPenalty : ℤ) := Int.natCast_nonneg _
  have ha : (0 : ℤ) ≤ (a : ℤ) * (cfg.alertPenalty : ℤ) :=
    mul_nonneg (Int.natCast_nonneg _) hp
  have hc : (0 : ℤ) ≤ (c : ℤ) * (cfg.conflictPenalty : ℤ) :=
    mul_nonneg (Int.natCast_nonneg _) hq
  refine ⟨by simp, ?_, ?_, le_max_left _ _, ?_⟩
  · apply max_le_max le_rfl
    push_cast
    linarith
  · apply max_le_max le_rfl
    push_cast
    linarith
  · apply max_le
    · linarith
    · linarith

/-! ## Claim C9 -/

/-- Each `setGenerateConfig` update preserves the C9 domain invariant:
the three day buttons only ever install 3, 7 or 14, the three meal buttons
only ever install one of the three option keys, and the remaining updates
leave both fields untouched. -/
theorem configInvariant_applyConfigEvent (cfg : GenerateMenuRequest)
    (e : ConfigEvent) (h : configInvariant cfg) :
    configInvariant (applyConfigEvent cfg e) := by
  cases e with
  | pressDay i => exact ⟨List.get_mem _ _ _, h.2⟩
  | pressMeal i => exact ⟨h.1, List.get_mem _ _ _⟩
  | pressBudget i => exact h
  | toggleLeftovers => exact h
  | toggleSameMealTimes => exact h

/-- C9: the initial `generateConfig` satisfies
`days ∈ {3, 7, 14}` and
`mealsPerDay ∈ {3_main, 3_plus_2_snacks, 2_plus_1_intermediate}`, and every
reachable configuration state — the fold of any sequence of selector/toggle
events over the initial state — still satisfies both, so every generation
request sent to the API carries values from these domains. -/
theorem generateConfig_domain_invariant :
    configInvariant initialGenerateConfig ∧
    ∀ events : List ConfigEvent,
      configInvariant (events.foldl applyConfigEvent initialGenerateConfig) := by
  have hinit : configInvariant initialGenerateConfig := by decide
  refine ⟨hinit, fun events => ?_⟩
  suffices h : ∀ (evs : List ConfigEvent) (cfg : GenerateMenuRequest),
      configInvariant cfg → configInvariant (evs.foldl applyConfigEvent cfg) from
    h events initialGenerateConfig hinit
  intro evs
  induction evs with
  | nil => exact fun cfg h => h
  | cons e t ih =>
      exact fun cfg h => ih (applyConfigEvent cfg e) (configInvariant_applyConfigEvent cfg e h)

/-! ## Claim C10 -/

/-- Every quantity update sends a value of `[0, 1000]` back into `[0, 1000]`. -/
theorem quantity_step_bounds (q : ℤ) (e : QuantityEvent)
    (h0 : 0 ≤ q) (h1 : q ≤ 1000) :
    0 ≤ applyQuantityEvent q e ∧ applyQuantityEvent q e ≤ 1000 := by
  cases e with
  | decrement => simp only [applyQuantityEvent]; omega
  | increment => simp only [applyQuantityEvent]; omega
  | input parsed => simp only [applyQuantityEvent, parseIntOrZero]; omega

/-- C10: the quantity starts at 100; the minus button maps `q` to
`max 10 (q - 10)` (never below 10), the plus button maps `q` to
`min 1000 (q + 10)`, parsed text input is clamped to
`max 0 (min 1000 parsed)` with unparseable text treated as 0; and after any
sequence of updates from the initial state the quantity lies in `[0, 1000]`. -/
theorem quantity_bounds_invariant :
    quantityInit = 100 ∧
    (∀ q : ℤ, applyQuantityEvent q QuantityEvent.decrement = max 10 (q - 10) ∧
      10 ≤ applyQuantityEvent q QuantityEvent.decrement) ∧
    (∀ q : ℤ, applyQuantityEvent q QuantityEvent.increment = min 1000 (q + 10)) ∧
    (∀ q p : ℤ, applyQuantityEvent q (QuantityEvent.input (some p)) =
      max 0 (min 1000 p)) ∧
    (∀ q : ℤ, applyQuantityEvent q (QuantityEvent.input none) = 0) ∧
    (∀ events : List QuantityEvent,
      0 ≤ events.foldl applyQuantityEvent quantityInit ∧
      events.foldl applyQuantityEvent quantityInit ≤ 1000) := by
  refine ⟨rfl, fun q => ⟨rfl, le_max_left _ _⟩, fun q => rfl, fun q p => rfl,
    fun q => rfl, fun events => ?_⟩
  suffices h : ∀ (evs : List QuantityEvent) (q : ℤ), 0 ≤ q → q ≤ 1000 →
      0 ≤ evs.foldl applyQuantityEvent q ∧ evs.foldl applyQuantityEvent q ≤ 1000 from
    h events quantityInit (by decide) (by decide)
  intro evs
  induction evs with
  | nil => exact fun q h0 h1 => ⟨h0, h1⟩
  | cons e t ih =>
      intro q h0 h1
      obtain ⟨g0, g1⟩ := quantity_step_bounds q e h0 h1
      exact ih (applyQuantityEvent q e) g0 g1

/-! ## Claim C2 -/

/-- C2 counterexample: a statistics payload whose `dailyBreakdown` is
present but empty (an empty array is truthy in JavaScript) passes the
`!statistics?.dailyBreakdown` guard, so the derivation returns a non-null
chart object with empty label/data series — not `null` as the claim
requires for empty input. -/
theorem chartData_empty_breakdown_not_none :
    statsEmptyBreakdown.dailyBreakdown = some ([] : List DailyRecord) ∧
    chartData (fun s => s) (some statsEmptyBreakdown) =
      some { line := { labels := [], data := [] }
           , bar := { labels := [], data := [] }
           , pie := [ { name := "Protein", population := 0 }
                    , { name := "Carbs", population := 0 }
                    , { name := "Fats", population := 0 } ] } :=
  ⟨rfl, rfl⟩

/-- C2 (amended): the chart-series derivation returns `null` if and only if
the daily-breakdown field is absent (no statistics yet, or no
`dailyBreakdown` on them); whenever the field is present — including the
present-but-empty sequence — it returns a non-null series whose label and
data sequences have equal length at most 7. -/
theorem chartData_none_iff_breakdown_absent (labelOf : String → String)
    (stats : Option Statistics) :
    (chartData labelOf stats = none ↔
      stats.bind Statistics.dailyBreakdown = none) ∧
    (∀ s breakdown, stats = some s → s.dailyBreakdown = some breakdown →
      chartData labelOf stats = some (mkChartData labelOf s breakdown) ∧
      (mkChartData labelOf s breakdown).line.labels.length =
        (mkChartData labelOf s breakdown).line.data.length ∧
      (mkChartData labelOf s breakdown).line.data.length ≤ 7 ∧
      (mkChartData labelOf s breakdown).bar =
        (mkChartData labelOf s breakdown).line) := by
  constructor
  · cases stats with
    | none => simp [chartData]
    | some s =>
        cases hb : s.dailyBreakdown with
        | none => simp [chartData, hb]
        | some breakdown => simp [chartData, hb]
  · intro s breakdown hs hb
    subst hs
    refine ⟨by simp [chartData, hb], by simp [mkChartData], ?_, rfl⟩
    simp only [mkChartData, List.length_map, lastN, List.length_drop]
    omega

/-- Witness for C2 at a concrete two-record payload. -/
theorem chartData_none_iff_breakdown_absent_witness :
    chartData (fun s => s) (some statsTwo) =
      some (mkChartData (fun s => s) statsTwo [recFull, recMissing]) ∧
    (mkChartData (fun s => s) statsTwo [recFull, recMissing]).line.labels.length =
      (mkChartData (fun s => s) statsTwo [recFull, recMissing]).line.data.length ∧
    (mkChartData (fun s => s) statsTwo [recFull, recMissing]).line.data.length ≤ 7 ∧
    (mkChartData (fun s => s) statsTwo [recFull, recMissing]).bar =
      (mkChartData (fun s => s) statsTwo [recFull, recMissing]).line :=
  (chartData_none_iff_breakdown_absent (fun s => s) (some statsTwo)).2
    statsTwo [recFull, recMissing] rfl rfl

/-! ## Claim C5 -/

/-- C5: for every non-empty breakdown, the produced line and bar series are
built from exactly the last `min 7 (length)` records in their original
order — the labels are the per-record labels and the data the per-record
calories of `lastN 7 breakdown` — and the label and data sequences have
equal length `min 7 (length) ≤ 7`. -/
theorem chart_series_last_seven (labelOf : String → String) (stats : Statistics)
    (breakdown : List DailyRecord) (cd : ChartData)
    (hb : stats.dailyBreakdown = some breakdown) (hne : breakdown ≠ [])
    (hcd : chartData labelOf (some stats) = some cd) :
    cd.line.labels = (lastN 7 breakdown).map (fun d => labelOf d.date) ∧
    cd.line.data = (lastN 7 breakdown).map (fun d => d.calories.getD 0) ∧
    cd.bar.labels = cd.line.labels ∧
    cd.bar.data = cd.line.data ∧
    cd.line.labels.length = cd.line.data.length ∧
    cd.line.data.length = min 7 breakdown.length ∧
    cd.line.data.length ≤ 7 := by
  have hcd' : cd = mkChartData labelOf stats breakdown := by
    simp [chartData, hb] at hcd
    exact hcd.symm
  subst hcd'
  refine ⟨rfl, rfl, rfl, rfl, by simp [mkChartData], ?_, ?_⟩ <;>
    simp only [mkChartData, List.length_map, lastN, List.length_drop] <;> omega

/-- Witness for C5 at a concrete two-record payload. -/
theorem chart_series_last_seven_witness :
    (mkChartData (fun s => s) statsTwo [recFull, recMissing]).line.labels =
      (lastN 7 [recFull, recMissing]).map (fun d => d.date) ∧
    (mkChartData (fun s => s) statsTwo [recFull, recMissing]).line.data =
      (lastN 7 [recFull, recMissing]).map (fun d => d.calories.getD 0) ∧
    (mkChartData (fun s => s) statsTwo [recFull, recMissing]).bar.labels =
      (mkChartData (fun s => s) statsTwo [recFull, recMissing]).line.labels ∧
    (mkChartData (fun s => s) statsTwo [recFull, recMissing]).bar.data =
      (mkChartData (fun s => s) statsTwo [recFull, recMissing]).line.data ∧
    (mkChartData (fun s => s) statsTwo [recFull, recMissing]).line.labels.length =
      (mkChartData (fun s => s) statsTwo [recFull, recMissing]).line.data.length ∧
    (mkChartData (fun s => s) statsTwo [recFull, recMissing]).line.data.length =
      min 7 ([recFull, recMissing] : List DailyRecord).length ∧
    (mkChartData (fun s => s) statsTwo [recFull, recMissing]).line.data.length ≤ 7 :=
  chart_series_last_seven (fun s => s) statsTwo [recFull, recMissing]
    (mkChartData (fun s => s) statsTwo [recFull, recMissing])
    rfl (by decide) rfl

/-! ## Claim C6 -/

/-- C6: a record whose numeric field is absent contributes the value 0 at
its own position of the derived series — it is not dropped and does not
abort the aggregation: the series keeps one entry per retained record, and
the chart's line data is exactly this series for the calories field. -/
theorem missing_field_zero_contribution (field : DailyRecord → Option ℚ)
    (breakdown : List DailyRecord) (i : ℕ) (d : DailyRecord)
    (hd : (lastN 7 breakdown)[i]? = some d) (hmiss : field d = none) :
    (seriesOf field breakdown)[i]? = some 0 ∧
    (seriesOf field breakdown).length = (lastN 7 breakdown).length ∧
    ∀ (labelOf : String → String) (stats : Statistics),
      stats.dailyBreakdown = some breakdown →
      chartData labelOf (some stats) = some (mkChartData labelOf stats breakdown) ∧
      (mkChartData labelOf stats breakdown).line.data =
        seriesOf DailyRecord.calories breakdown := by
  refine ⟨?_, by simp [seriesOf], fun labelOf stats hb => ⟨by simp [chartData, hb], rfl⟩⟩
  simp [seriesOf, List.getElem?_map, hd, hmiss]

/-- Witness for C6: the second record of the sample payload lacks its
calories field yet still occupies position 1 of the series with value 0. -/
theorem missing_field_zero_contribution_witness :
    (seriesOf DailyRecord.calories [recFull, recMissing])[1]? = some 0 ∧
    (seriesOf DailyRecord.calories [recFull, recMissing]).length =
      (lastN 7 [recFull, recMissing]).length ∧
    ∀ (labelOf : String → String) (stats : Statistics),
      stats.dailyBreakdown = some [recFull, recMissing] →
      chartData labelOf (some stats) =
        some (mkChartData labelOf stats [recFull, recMissing]) ∧
      (mkChartData labelOf stats [recFull, recMissing]).line.data =
        seriesOf DailyRecord.calories [recFull, recMissing] :=
  missing_field_zero_contribution DailyRecord.calories [recFull, recMissing]
    1 recMissing rfl rfl

/-! ## Claim C4 -/

/-- C4: the daily-contribution bar width is the contribution percent
clamped to at most 100 — it equals the percent itself up to 100 and is
capped at 100 above — while the numeric percent rendered next to the bar is
the unclamped value rounded, so a contribution of 150% or more still
displays as at least 150 even though its bar caps at 100. -/
theorem contribution_bar_clamped_display_unclamped (percent : ℚ) :
    (renderContribution percent).barWidthPercent = min percent 100 ∧
    (renderContribution percent).displayPercent = round percent ∧
    (renderContribution percent).barWidthPercent ≤ 100 ∧
    (percent ≤ 100 → (renderContribution percent).barWidthPercent = percent) ∧
    (100 < percent → (renderContribution percent).barWidthPercent = 100) ∧
    ((150 : ℚ) ≤ percent → (150 : ℤ) ≤ (renderContribution percent).displayPercent) := by
  refine ⟨rfl, rfl, min_le_right _ _, fun h => min_eq_left h,
    fun h => min_eq_right h.le, fun h => ?_⟩
  show (150 : ℤ) ≤ round percent
  rw [round_eq, Int.le_floor]
  push_cast
  linarith

/-- Witness for C4 at a 150% contribution: bar capped at 100, displayed
number still 150. -/
theorem contribution_bar_clamped_display_unclamped_witness :
    (100 : ℚ) < 150 ∧ (150 : ℚ) ≤ 150 ∧
    (renderContribution 150).barWidthPercent = 100 ∧
    (150 : ℤ) ≤ (renderContribution 150).displayPercent :=
  ⟨by norm_num, le_refl _,
    (contribution_bar_clamped_display_unclamped 150).2.2.2.2.1 (by norm_num),
    (contribution_bar_clamped_display_unclamped 150).2.2.2.2.2 (le_refl _)⟩

/-! ## Claim C7 -/

/-- C7: the achievement progress-bar fill width is
`progress / max_progress * 100` with no clamp applied; under the invariant
`progress ≤ max_progress` (with `max_progress > 0`) it never exceeds 100,
and when the invariant is violated the over-100% value is rendered as-is. -/
theorem achievement_fill_unclamped (a : Achievement) :
    achievementFillWidthPercent a = a.progress / a.max_progress * 100 ∧
    (0 < a.max_progress → a.progress ≤ a.max_progress →
      achievementFillWidthPercent a ≤ 100) ∧
    (0 < a.max_progress → a.max_progress < a.progress →
      100 < achievementFillWidthPercent a) := by
  refine ⟨rfl, fun hm hp => ?_, fun hm hp => ?_⟩
  · unfold achievementFillWidthPercent
    have h1 : a.progress / a.max_progress ≤ 1 := (div_le_one hm).mpr hp
    linarith
  · unfold achievementFillWidthPercent
    have h1 : 1 < a.progress / a.max_progress := (one_lt_div hm).mpr hp
    linarith

/-- Witness for C7 at an over-progressed achievement (150 of 100): the
rendered width is above 100%. -/
theorem achievement_fill_unclamped_witness :
    (0 : ℚ) < 100 ∧ (100 : ℚ) < 150 ∧
    100 < achievementFillWidthPercent
      { title := "t", description := "d", progress := 150, max_progress := 100 } :=
  ⟨by norm_num, by norm_num,
    (achievement_fill_unclamped
      { title := "t", description := "d", progress := 150, max_progress := 100 }).2.2
      (by norm_num) (by norm_num)⟩

end Calo
